import Mathlib

/-!
Verification of the wine-version downloader pipeline
(`src/backend/wine/manager/downloader/main.ts`).

The two exported operations, `getAvailableVersions` and `installVersion`, are
embedded shallowly.  External collaborators (axios fetch of the checksum
manifest, `downloadFile`, `unzipFile`, `mkdirSync`, node's `crypto` SHA-512,
`getFolderSize`, `fetchReleases`) are primitives whose outcomes are supplied by
an environment record `Env`; the orchestrator logic itself — ordering, error
branches, filesystem cleanup and rollback — is translated branch-by-branch from
the source.

The filesystem is modelled by the three paths the pipeline owns for one run
(the archive file `<installDir>/<basename of download URL>`, the install
subdirectory `<installDir>/<version>`, and the backup directory
`<installSubDir>_backup`); each is `Option` its contents, `none` meaning
absent.  Since the three path strings are fixed for a given run, the state is
keyed by role rather than by path string.  A trace of phase events is recorded
so that ordering properties can be stated.
-/

deriving instance DecidableEq for Except

/-- Contents of a directory, modelled as the list of its (marker) file names.
`getFolderSize` is an external helper, so the size of a directory is computed
by an abstract `folderSize` function carried in the environment. -/
def Dir : Type := List String

instance : DecidableEq Dir := inferInstanceAs (DecidableEq (List String))

/-- One installable release.  The record type (`VersionInfo` in
`common/types`) is outside this repository; the fields consumed by the
downloader are `version`, `download`, `checksum` and `disksize`, matching the
spec's VersionRecord (versionId / downloadUrl / checksumUrl / diskSizeBytes).
`checksum` is optional; in the source a present-but-empty string is falsy, so
truthiness is modelled explicitly by `checksumUrlTruthy`. -/
structure VersionInfo where
  version : String
  download : String
  checksum : Option String
  disksize : Nat
deriving DecidableEq

/-- The on-disk state the pipeline owns for one run: the archive (tar) file,
the install subdirectory, and the backup subdirectory.  `none` = absent,
`some c` = present with contents `c`. -/
structure FS where
  tarFile : Option String
  installSubDir : Option Dir
  backupDir : Option Dir
deriving DecidableEq

/-- Phase events, in the order the source emits them, used to state ordering
claims.  `checksumManifestFetch` is the axios GET of the checksum manifest
(performed in the variable-declaration block of `installVersion`);
`checksumVerify` is the SHA-512 digest computation and comparison after
download. -/
inductive Event where
  | checksumManifestFetch
  | validateTarget
  | checkDownloadLink
  | skipCheck
  | staleArchiveRemoval
  | downloadStart
  | checksumVerify
  | mkdirOrBackup
  | extractStart
  | commit
deriving DecidableEq

/-- The failure modes of `installVersion`.  The source throws plain `Error`s;
each variant corresponds to one `throw` site (spec §7 names):
`invalidTarget` = InvalidTargetError (lines 213-217), `missingDownloadLink` =
MissingDownloadLinkError (line 221), `checksumFetchError` = rejection of the
awaited axios GET (line 189), `downloadError` = DownloadError (line 270),
`checksumMismatch` = ChecksumMismatchError (line 284), `directoryCreationError`
= DirectoryCreationError (line 299), `extractionError` = ExtractionError
(line 326), `abortError` = the error with name AbortError thrown by
`abortHandler` (line 205).  `rawFsError` models `renameSync`/`rmSync` throwing
on a missing path, which the source does not catch. -/
inductive InstallError where
  | invalidTarget
  | missingDownloadLink
  | checksumFetchError (cause : String)
  | downloadError (cause : String)
  | checksumMismatch
  | directoryCreationError (cause : String)
  | extractionError (cause : String)
  | abortError
  | rawFsError
deriving DecidableEq

/-- Success payload of `installVersion`: the updated record and the install
subdirectory path (the source resolves with
`{ versionInfo, installDir: installSubDir }`). -/
structure InstallOutput where
  versionInfo : VersionInfo
  installDir : String
deriving DecidableEq

/-- Outcomes of the external primitives for one run.  `manifestFetch` is the
result of the axios GET on the checksum URL (consulted only when the URL is
truthy); `downloadResult` carries the downloaded archive bytes on success and
the rejection string on failure (`downloadFile` rejects with a string, and
abort is recognised by the substring AbortError, mirroring
`error.includes('AbortError')`); similarly `unzipResult`.  `extractedDir` is
what a successful extraction leaves at the unzip path, `partialExtractDir`
what a failed one leaves there.  `sha512hex` abstracts node crypto,
`folderSize` abstracts `getFolderSize`. -/
structure Env where
  installDirExists : Bool
  installDirIsDir : Bool
  manifestFetch : Except String String
  downloadResult : Except String String
  mkdirResult : Except String Unit
  unzipResult : Except String Unit
  extractedDir : Dir
  partialExtractDir : Dir
  sha512hex : String → String
  folderSize : Dir → Nat

/-- Result of one pipeline run: the settled promise, the final filesystem
state, and the emitted phase events in order. -/
structure RunResult where
  outcome : Except InstallError InstallOutput
  fs : FS
  trace : List Event
deriving DecidableEq

/-- JS `hay.includes(needle)` (substring containment). -/
def strIncludes (hay needle : String) : Bool :=
  decide (List.IsInfix needle.data hay.data)

/-- Truthiness of `versionInfo.checksum` in JS: present and nonempty. -/
def checksumUrlTruthy (vi : VersionInfo) : Bool :=
  match vi.checksum with
  | none => false
  | some u => u ≠ ""

/-- The `sourceChecksum` computation at the top of `installVersion`
(lines 187-193): when the checksum URL is truthy, await the axios GET of its
text (a rejection rejects the whole call); otherwise `undefined` (`none`). -/
def resolveChecksum (env : Env) (vi : VersionInfo) : Except String (Option String) :=
  if checksumUrlTruthy vi then
    match env.manifestFetch with
    | .ok t => .ok (some t)
    | .error e => .error e
  else .ok none

/-- The checksum acceptance test (lines 281-291): `if (sourceChecksum)` — the
fetched text must be truthy (nonempty) for the check to run at all — and then
the digest must be a substring of the manifest text; a falsy `sourceChecksum`
only logs a warning and proceeds. -/
def checksumAccepts (sourceChecksum : Option String) (digest : String) : Bool :=
  match sourceChecksum with
  | some t => if t ≠ "" then strIncludes t digest else true
  | none => true

/-- `abortHandler` (lines 195-206): `unlinkFile(tarFile)`, then
`rmSync(installSubDir, { recursive: true })` if it exists, then throw an error
named AbortError.  It never touches the backup directory; the restore code
after the `abortHandler()` call sites is unreachable because `abortHandler`
throws. -/
def abortHandlerFS (fs : FS) : FS :=
  { fs with tarFile := none, installSubDir := none }

/-- The extraction / commit phase (`unzipFile(...).catch(...)` and the
clean-up, lines 306-339).  On rejection: if the rejection string contains
AbortError, `abortHandler` runs (and throws, so nothing after it runs);
otherwise remove the unzip dir and the tar file, restore the backup when
overwriting, and throw the ExtractionError.  On success: remove the backup
when overwriting, remove the tar file, recompute the folder size and resolve.
`rmSync`/`renameSync` on a missing path throw (`rawFsError`); the restore
rename's target is always absent here because the unzip directory was removed
on the line before it, so it can only fail for a missing source. -/
def unzipPhase (env : Env) (vi : VersionInfo) (subDirPath : String)
    (overwrite : Bool) (fs : FS) (tr : List Event) : RunResult :=
  let tr1 := tr ++ [Event.extractStart]
  match env.unzipResult with
  | .error e =>
    if strIncludes e "AbortError" then
      ⟨.error .abortError,
        abortHandlerFS { fs with installSubDir := some env.partialExtractDir }, tr1⟩
    else
      let fsA : FS := { fs with installSubDir := none, tarFile := none }
      if overwrite then
        match fsA.backupDir with
        | none => ⟨.error .rawFsError, fsA, tr1⟩
        | some d =>
          ⟨.error (.extractionError e),
            { fsA with installSubDir := some d, backupDir := none }, tr1⟩
      else
        ⟨.error (.extractionError e), fsA, tr1⟩
  | .ok _ =>
    let fs4 : FS := { fs with installSubDir := some env.extractedDir }
    if overwrite then
      match fs4.backupDir with
      | none => ⟨.error .rawFsError, fs4, tr1⟩
      | some _ =>
        ⟨.ok ⟨{ vi with disksize := env.folderSize env.extractedDir }, subDirPath⟩,
          { fs4 with backupDir := none, tarFile := none }, tr1 ++ [Event.commit]⟩
    else
      ⟨.ok ⟨{ vi with disksize := env.folderSize env.extractedDir }, subDirPath⟩,
        { fs4 with tarFile := none }, tr1 ++ [Event.commit]⟩

/-- `installVersion` (lines 171-340), phase by phase:
variable declaration (checksum manifest fetch — note: this network call
happens before pre-flight validation), target-directory validation, download
link check, idempotent-skip check, stale-archive removal, download with abort
sniffing, checksum verification, mkdir (fresh) or backup rename (overwrite),
and the extraction / commit phase.

The backup rename (`renameSync(installSubDir, installSubDir_backup)`,
line 303) is uncaught in the source and follows rename(2) semantics: it
succeeds when the backup path is absent or holds an empty directory (an
existing empty directory is replaced), and throws ENOTEMPTY — modelled as
`rawFsError`, with nothing cleaned up — when the backup path holds a
non-empty directory (for example one stranded by an earlier aborted
overwrite); it also throws ENOENT (`rawFsError`) when the source install
subdirectory does not exist. -/
def installVersion (env : Env) (vi : VersionInfo) (installDir : String)
    (overwrite : Bool) (fs0 : FS) : RunResult :=
  let subDirPath := installDir ++ "/" ++ vi.version
  match resolveChecksum env vi with
  | .error e => ⟨.error (.checksumFetchError e), fs0, [Event.checksumManifestFetch]⟩
  | .ok sourceChecksum =>
    let tr0 := if checksumUrlTruthy vi then [Event.checksumManifestFetch] else []
    if !env.installDirExists then
      ⟨.error .invalidTarget, fs0, tr0 ++ [Event.validateTarget]⟩
    else if !env.installDirIsDir then
      ⟨.error .invalidTarget, fs0, tr0 ++ [Event.validateTarget]⟩
    else
      let tr1 := tr0 ++ [Event.validateTarget]
      if vi.download = "" then
        ⟨.error .missingDownloadLink, fs0, tr1 ++ [Event.checkDownloadLink]⟩
      else
        let tr2 := tr1 ++ [Event.checkDownloadLink]
        if fs0.installSubDir.isSome && !overwrite then
          ⟨.ok ⟨{ vi with disksize := env.folderSize (fs0.installSubDir.getD []) },
              subDirPath⟩, fs0, tr2 ++ [Event.skipCheck]⟩
        else
          let tr3 := tr2 ++ [Event.skipCheck]
          let fs1 : FS := { fs0 with tarFile := none }
          let tr4 := tr3 ++ [Event.staleArchiveRemoval]
          match env.downloadResult with
          | .error e =>
            if strIncludes e "AbortError" then
              ⟨.error .abortError, abortHandlerFS fs1, tr4 ++ [Event.downloadStart]⟩
            else
              ⟨.error (.downloadError e), { fs1 with tarFile := none },
                tr4 ++ [Event.downloadStart]⟩
          | .ok content =>
            let fs2 : FS := { fs1 with tarFile := some content }
            let tr5 := tr4 ++ [Event.downloadStart]
            let digest := env.sha512hex content
            let tr6 := tr5 ++ [Event.checksumVerify]
            if !checksumAccepts sourceChecksum digest then
              ⟨.error .checksumMismatch, { fs2 with tarFile := none }, tr6⟩
            else
              let tr7 := tr6 ++ [Event.mkdirOrBackup]
              if !overwrite then
                match env.mkdirResult with
                | .error e =>
                  ⟨.error (.directoryCreationError e), { fs2 with tarFile := none }, tr7⟩
                | .ok _ =>
                  unzipPhase env vi subDirPath overwrite
                    { fs2 with installSubDir := some [] } tr7
              else
                match fs2.installSubDir with
                | none => ⟨.error .rawFsError, fs2, tr7⟩
                | some d =>
                  if fs2.backupDir.getD [] = [] then
                    unzipPhase env vi subDirPath overwrite
                      { fs2 with installSubDir := none, backupDir := some d } tr7
                  else ⟨.error .rawFsError, fs2, tr7⟩

/-- The six repository kinds handled by `getAvailableVersions` (the
`Repositorys` enum of `common/types`; every value the source's `switch` covers,
so the warn-and-skip `default` branch is unreachable for this type). -/
inductive Repositorys where
  | WINEGE
  | PROTONGE
  | PROTON
  | WINELUTRIS
  | WINECROSSOVER
  | WINESTAGINGMACOS
deriving DecidableEq

/-- `getAvailableVersions` (lines 45-148).  `fetchReleases` is the external
per-repository fetch (each enum value maps to a fixed URL/type pair in the
source, so it is keyed here by the repository kind and the count); a rejected
fetch is logged (`logError`) and its releases are skipped, a resolved one has
its releases pushed in order.  Returns the accumulated releases together with
the list of logged fetch errors, in repository order. -/
def getAvailableVersions
    (fetchReleases : Repositorys → Nat → Except String (List VersionInfo))
    (repositorys : List Repositorys) (count : Nat) :
    List VersionInfo × List String :=
  match repositorys with
  | [] => ([], [])
  | repo :: rest =>
    let tail := getAvailableVersions fetchReleases rest count
    match fetchReleases repo count with
    | .ok fetchedReleases => (fetchedReleases ++ tail.1, tail.2)
    | .error e => (tail.1, e :: tail.2)

/-- Spec-side description of the catalog result: each repository contributes
its fetched releases when the fetch succeeds and nothing when it fails. -/
def successfulReleases
    (fetchReleases : Repositorys → Nat → Except String (List VersionInfo))
    (repositorys : List Repositorys) (count : Nat) : List VersionInfo :=
  match repositorys with
  | [] => []
  | repo :: rest =>
    (match fetchReleases repo count with
      | .ok l => l
      | .error _ => []) ++ successfulReleases fetchReleases rest count

/-! Concrete fixtures used by counterexamples and witnesses. -/

/-- A stand-in for the SHA-512 hex digest function: injective on the inputs
used in the fixtures. -/
def hashFn : String → String := fun s => "sha512-" ++ s

/-- Base environment for a fully successful fresh run: valid target dir,
manifest text containing the digest of the downloaded bytes, successful
download / mkdir / unzip. -/
def env0 : Env where
  installDirExists := true
  installDirIsDir := true
  manifestFetch := .ok "sha512-bytes trailing"
  downloadResult := .ok "bytes"
  mkdirResult := .ok ()
  unzipResult := .ok ()
  extractedDir := ["a", "b"]
  partialExtractDir := ["half"]
  sha512hex := hashFn
  folderSize := List.length

/-- A version record with a truthy checksum URL. -/
def vi0 : VersionInfo where
  version := "GE-1"
  download := "http://x/y.tar.gz"
  checksum := some "http://x/y.sha512sum"
  disksize := 7

/-- Empty target state: nothing at any of the three paths. -/
def fsEmpty : FS where
  tarFile := none
  installSubDir := none
  backupDir := none

/-- Target state with a pre-existing install containing a marker file. -/
def fsPre : FS where
  tarFile := none
  installSubDir := some ["marker"]
  backupDir := none

/-- A version record whose download URL is empty (falsy in JS). -/
def viNoLink : VersionInfo where
  version := "GE-1"
  download := ""
  checksum := some "http://x/y.sha512sum"
  disksize := 7

/-- A fixed catalog fetcher in which exactly the Proton-GE repository's fetch
rejects. -/
def fetchFix : Repositorys → Nat → Except String (List VersionInfo) := fun r _ =>
  match r with
  | .WINEGE => .ok [vi0]
  | .PROTONGE => .error "http 500"
  | _ => .ok []

/-!
Theorems: one per claim of the specification, with witnesses for the
hypothesis-bearing ones.
-/

/-- Helper: the releases returned by `getAvailableVersions` are exactly the
concatenation of the successfully fetched repositories' releases, in
repository order. -/
theorem getAvailableVersions_fst
    (f : Repositorys → Nat → Except String (List VersionInfo))
    (l : List Repositorys) (c : Nat) :
    (getAvailableVersions f l c).1 = successfulReleases f l c := by
  induction l with
  | nil => rfl
  | cons r rest ih =>
    unfold getAvailableVersions successfulReleases
    cases hf : f r c <;> simp [hf, ih]

/-- C1: evaluation of the code at the failing input.  In an overwrite install
(pre-existing install subdirectory containing a marker) whose extraction is
aborted, the pipeline rejects with AbortError having deleted the partial
install subdirectory and the archive file — but the backup directory is NOT
renamed back: `abortHandler` throws before the restore line in the catch
block can run, so the prior install is left stranded at the backup path and
nothing exists at the canonical install path.  This contradicts the claimed
(and spec-intended) restore-on-abort behaviour. -/
theorem c1_extraction_abort_strands_backup :
    installVersion { env0 with unzipResult := .error "AbortError: canceled" }
        vi0 "p" true fsPre =
      ⟨.error .abortError, ⟨none, none, some ["marker"]⟩,
        [.checksumManifestFetch, .validateTarget, .checkDownloadLink, .skipCheck,
         .staleArchiveRemoval, .downloadStart, .checksumVerify, .mkdirOrBackup,
         .extractStart]⟩ := by decide

/-- C2: in an overwrite install in which extraction fails for a reason other
than cancellation, the pipeline rejects with an ExtractionError wrapping the
cause, and afterwards the install subdirectory exists at the canonical path
with its original pre-run contents, no backup directory remains, and the
archive file has been removed.  The hypothesis `hbk` requires that no
non-empty directory already sits at the backup path before the run: with one
there, the uncaught backup rename throws before extraction starts, so no run
in the claim's scope (an extraction failure) exists at such a state — the
spec's invariant (§3) has at most one backup directory, existing only while
an overwrite is in flight. -/
theorem c2_overwrite_extraction_failure_restores_prior_install
    (env : Env) (vi : VersionInfo) (dir : String) (fs0 : FS) (d : Dir)
    (sc : Option String) (content e : String)
    (hfetch : resolveChecksum env vi = .ok sc)
    (hex : env.installDirExists = true) (hdirp : env.installDirIsDir = true)
    (hlink : ¬vi.download = "")
    (hsub : fs0.installSubDir = some d)
    (hbk : fs0.backupDir.getD [] = [])
    (hdl : env.downloadResult = .ok content)
    (hck : checksumAccepts sc (env.sha512hex content) = true)
    (huz : env.unzipResult = .error e)
    (hab : strIncludes e "AbortError" = false) :
    (installVersion env vi dir true fs0).outcome = .error (.extractionError e) ∧
    (installVersion env vi dir true fs0).fs = ⟨none, some d, none⟩ := by
  unfold installVersion unzipPhase
  rw [hfetch]
  simp [hex, hdirp, hlink, hsub, hbk, hdl, hck, huz, hab]

/-- C2 witness: a concrete overwrite run whose extraction fails with a
non-abort error restores the marker directory. -/
theorem c2_witness_extraction_failure_rollback :
    (installVersion { env0 with unzipResult := .error "disk full" }
        vi0 "p" true fsPre).outcome = .error (.extractionError "disk full") ∧
    (installVersion { env0 with unzipResult := .error "disk full" }
        vi0 "p" true fsPre).fs = ⟨none, some ["marker"], none⟩ :=
  c2_overwrite_extraction_failure_restores_prior_install
    { env0 with unzipResult := .error "disk full" } vi0 "p" fsPre ["marker"]
    (some "sha512-bytes trailing") "bytes" "disk full"
    (by decide) (by decide) (by decide) (by decide) (by decide) (by decide)
    (by decide) (by decide) (by decide) (by decide)

/-- C3: evaluation of the code at the failing input.  When the cancellation
signal fires during the download phase of an overwrite run, `abortHandler`
removes the install subdirectory whenever it exists — which at that point can
only be the pre-existing good install, since neither mkdir nor the backup
rename has happened yet.  The claim (and spec §4.3) says the pre-existing
install is left in place; the code deletes it. -/
theorem c3_download_abort_deletes_preexisting_install :
    installVersion { env0 with downloadResult := .error "fail AbortError" }
        vi0 "p" true fsPre =
      ⟨.error .abortError, ⟨none, none, none⟩,
        [.checksumManifestFetch, .validateTarget, .checkDownloadLink, .skipCheck,
         .staleArchiveRemoval, .downloadStart]⟩ := by decide

/-- C4 counterexample: an install request squarely in the claim's scope — the
install subdirectory already exists and overwrite is false — whose record has
a checksum URL and whose manifest fetch rejects.  The awaited axios GET sits
before the skip check, so the operation errors with the fetch rejection
instead of returning success, contradicting the claim's "does not error ...
returns success immediately". -/
theorem c4_counterexample_manifest_fetch_rejection_preempts_skip :
    fsPre.installSubDir.isSome = true ∧
    checksumUrlTruthy vi0 = true ∧
    (installVersion { env0 with manifestFetch := .error "netdown" }
        vi0 "p" false fsPre).outcome = .error (.checksumFetchError "netdown") := by decide

/-- C4 (amended): when the install subdirectory already exists and overwrite
is false, provided the checksum-manifest fetch performed during
initialization does not reject (in particular whenever the record has no
checksum URL), the run returns success immediately with the record's disk
size recomputed from the existing directory and the existing subdirectory
path, the filesystem is untouched, and no download is started. -/
theorem c4_existing_install_skips_with_recomputed_size
    (env : Env) (vi : VersionInfo) (dir : String) (fs0 : FS) (d : Dir)
    (sc : Option String)
    (hfetch : resolveChecksum env vi = .ok sc)
    (hex : env.installDirExists = true) (hdirp : env.installDirIsDir = true)
    (hlink : ¬vi.download = "")
    (hsub : fs0.installSubDir = some d) :
    (installVersion env vi dir false fs0).outcome =
      .ok ⟨{ vi with disksize := env.folderSize d }, dir ++ "/" ++ vi.version⟩ ∧
    (installVersion env vi dir false fs0).fs = fs0 ∧
    Event.downloadStart ∉ (installVersion env vi dir false fs0).trace := by
  unfold installVersion
  rw [hfetch]
  cases hurl : checksumUrlTruthy vi <;>
    simp [hex, hdirp, hlink, hsub, hurl]

/-- C4 witness: a concrete second install of an already-installed version
returns success with the measured size and downloads nothing. -/
theorem c4_witness_idempotent_skip :
    (installVersion env0 vi0 "p" false fsPre).outcome =
      .ok ⟨{ vi0 with disksize := env0.folderSize ["marker"] }, "p" ++ "/" ++ vi0.version⟩ ∧
    (installVersion env0 vi0 "p" false fsPre).fs = fsPre ∧
    Event.downloadStart ∉ (installVersion env0 vi0 "p" false fsPre).trace :=
  c4_existing_install_skips_with_recomputed_size env0 vi0 "p" fsPre ["marker"]
    (some "sha512-bytes trailing")
    (by decide) (by decide) (by decide) (by decide) (by decide)

/-- C5 counterexample: a checksum URL is present (truthy) and the fetched
manifest text is the empty string; the archive's digest is certainly not a
substring of it, yet the run succeeds — the source's truthiness test
`if (sourceChecksum)` skips verification for an empty manifest text, so the
check IS skipped in this case, contradicting the claim that it is never
skipped and must fail on non-containment. -/
theorem c5_counterexample_empty_manifest_skips_verification :
    checksumUrlTruthy vi0 = true ∧
    strIncludes "" (hashFn "bytes") = false ∧
    (installVersion { env0 with manifestFetch := .ok "" } vi0 "p" false fsEmpty).outcome =
      .ok ⟨{ vi0 with disksize := 2 }, "p/GE-1"⟩ := by decide

/-- C5 (amended): when a checksum URL is present and the fetched manifest text
is nonempty, the SHA-512 digest of the archive must appear as a substring of
the manifest text; otherwise the archive file is deleted and the run fails
with ChecksumMismatchError.  (An empty fetched manifest text is treated like
an absent checksum and skips the check.) -/
theorem c5_nonempty_manifest_mismatch_rejects
    (env : Env) (vi : VersionInfo) (dir : String) (ow : Bool) (fs0 : FS)
    (t content : String)
    (hfetch : resolveChecksum env vi = .ok (some t))
    (ht : ¬t = "")
    (hex : env.installDirExists = true) (hdirp : env.installDirIsDir = true)
    (hlink : ¬vi.download = "")
    (hskip : (fs0.installSubDir.isSome && !ow) = false)
    (hdl : env.downloadResult = .ok content)
    (hmiss : strIncludes t (env.sha512hex content) = false) :
    (installVersion env vi dir ow fs0).outcome = .error .checksumMismatch ∧
    (installVersion env vi dir ow fs0).fs.tarFile = none := by
  unfold installVersion
  rw [hfetch]
  simp [hex, hdirp, hlink, hskip, hdl, checksumAccepts, ht, hmiss]

/-- C5 witness: a concrete run whose nonempty manifest does not contain the
archive digest fails with ChecksumMismatchError and removes the archive. -/
theorem c5_witness_mismatch_rejects :
    (installVersion { env0 with manifestFetch := .ok "unrelated hashes" }
        vi0 "p" false fsEmpty).outcome = .error .checksumMismatch ∧
    (installVersion { env0 with manifestFetch := .ok "unrelated hashes" }
        vi0 "p" false fsEmpty).fs.tarFile = none :=
  c5_nonempty_manifest_mismatch_rejects
    { env0 with manifestFetch := .ok "unrelated hashes" } vi0 "p" false fsEmpty
    "unrelated hashes" "bytes"
    (by decide) (by decide) (by decide) (by decide) (by decide) (by decide)
    (by decide) (by decide)

/-- C6 counterexample: the fetch of the checksum manifest text is performed in
the variable-declaration block, before pre-flight validation.  First conjunct:
with an invalid target directory the trace still begins with the manifest
fetch, followed by the validation that fails.  Second conjunct: a run whose
manifest fetch rejects terminates with that rejection before target
validation ever runs (its trace contains no validateTarget event at all).
Both contradict the claim that the synchronous pre-flight checks complete
before any part of the checksum phase, including the manifest fetch,
begins. -/
theorem c6_counterexample_manifest_fetch_precedes_validation :
    (installVersion { env0 with installDirExists := false } vi0 "p" false fsEmpty).trace =
      [.checksumManifestFetch, .validateTarget] ∧
    installVersion { env0 with manifestFetch := .error "netdown", installDirExists := false }
        vi0 "p" false fsEmpty =
      ⟨.error (.checksumFetchError "netdown"), fsEmpty, [.checksumManifestFetch]⟩ := by decide

/-- C6 (amended): the phases execute strictly in the order validate →
skip-check → download → checksum-verification → extract → commit, except that
the fetch of the checksum manifest text is performed first of all, during
initialization and before pre-flight validation.  A fully successful fresh
run with a checksum URL emits exactly this event sequence. -/
theorem c6_phase_order_with_initial_fetch
    (env : Env) (vi : VersionInfo) (dir : String) (fs0 : FS)
    (sc : Option String) (content : String)
    (hurl : checksumUrlTruthy vi = true)
    (hfetch : resolveChecksum env vi = .ok sc)
    (hex : env.installDirExists = true) (hdirp : env.installDirIsDir = true)
    (hlink : ¬vi.download = "")
    (hsub : fs0.installSubDir = none)
    (hdl : env.downloadResult = .ok content)
    (hck : checksumAccepts sc (env.sha512hex content) = true)
    (hmk : env.mkdirResult = .ok ())
    (huz : env.unzipResult = .ok ()) :
    (installVersion env vi dir false fs0).trace =
      [.checksumManifestFetch, .validateTarget, .checkDownloadLink, .skipCheck,
       .staleArchiveRemoval, .downloadStart, .checksumVerify, .mkdirOrBackup,
       .extractStart, .commit] := by
  unfold installVersion unzipPhase
  rw [hfetch]
  simp [hurl, hex, hdirp, hlink, hsub, hdl, hck, hmk, huz]

/-- C6 witness: a concrete fully successful fresh run emits the amended phase
order, manifest fetch first. -/
theorem c6_witness_phase_order :
    (installVersion env0 vi0 "p" false fsEmpty).trace =
      [.checksumManifestFetch, .validateTarget, .checkDownloadLink, .skipCheck,
       .staleArchiveRemoval, .downloadStart, .checksumVerify, .mkdirOrBackup,
       .extractStart, .commit] :=
  c6_phase_order_with_initial_fetch env0 vi0 "p" fsEmpty
    (some "sha512-bytes trailing") "bytes"
    (by decide) (by decide) (by decide) (by decide) (by decide) (by decide)
    (by decide) (by decide) (by decide) (by decide)

/-- C7 counterexample: a record with an empty download URL and a checksum URL
whose manifest fetch rejects.  The awaited axios GET sits before the
download-link check, so the operation fails with the fetch rejection, not
with MissingDownloadLinkError — contradicting the claim that every record
with no download URL fails with MissingDownloadLinkError. -/
theorem c7_counterexample_fetch_rejection_preempts_link_check :
    viNoLink.download = "" ∧
    (installVersion { env0 with manifestFetch := .error "netdown" }
        viNoLink "p" false fsEmpty).outcome = .error (.checksumFetchError "netdown") := by decide

/-- C7 (amended): a version record whose download URL is empty fails with
MissingDownloadLinkError — provided the checksum-manifest fetch performed
during initialization does not reject (in particular whenever the record has
no checksum URL) — and the filesystem state is completely unchanged (no
mutation of the archive path, install subdirectory or backup directory).  The
record type declares the URL as a required string, so absence is representable
only as the empty string. -/
theorem c7_missing_download_link_no_mutation
    (env : Env) (vi : VersionInfo) (dir : String) (ow : Bool) (fs0 : FS)
    (sc : Option String)
    (hfetch : resolveChecksum env vi = .ok sc)
    (hex : env.installDirExists = true) (hdirp : env.installDirIsDir = true)
    (hlink : vi.download = "") :
    (installVersion env vi dir ow fs0).outcome = .error .missingDownloadLink ∧
    (installVersion env vi dir ow fs0).fs = fs0 := by
  unfold installVersion
  rw [hfetch]
  simp [hex, hdirp, hlink]

/-- C7 witness: a concrete record with an empty download URL fails with
MissingDownloadLinkError leaving the filesystem untouched. -/
theorem c7_witness_missing_link :
    (installVersion env0 viNoLink "p" false fsPre).outcome = .error .missingDownloadLink ∧
    (installVersion env0 viNoLink "p" false fsPre).fs = fsPre :=
  c7_missing_download_link_no_mutation env0 viNoLink "p" false fsPre
    (some "sha512-bytes trailing")
    (by decide) (by decide) (by decide) (by decide)

/-- C8: any run that reaches the download phase (the phase that creates the
archive file) ends — whether in success or in any of the pipeline's defined
errors (download failure, checksum mismatch, directory-creation failure,
extraction failure, abort) — with the archive file absent.  The only excluded
outcome is `rawFsError`, the uncaught rename-of-a-missing-directory exception,
which is not one of the defined errors.  In this model the best-effort
`unlinkFile` removal itself always succeeds, so the claim's carve-out for a
failing removal does not arise. -/
theorem c8_archive_absent_on_defined_outcomes
    (env : Env) (vi : VersionInfo) (dir : String) (ow : Bool) (fs0 : FS)
    (sc : Option String)
    (hfetch : resolveChecksum env vi = .ok sc)
    (hex : env.installDirExists = true) (hdirp : env.installDirIsDir = true)
    (hlink : ¬vi.download = "")
    (hskip : (fs0.installSubDir.isSome && !ow) = false)
    (hraw : (installVersion env vi dir ow fs0).outcome ≠ .error .rawFsError) :
    (installVersion env vi dir ow fs0).fs.tarFile = none := by
  unfold installVersion unzipPhase at hraw ⊢
  rw [hfetch] at hraw ⊢
  cases ow with
  | false =>
    have hns : fs0.installSubDir.isSome = false := by simpa using hskip
    cases hdl : env.downloadResult with
    | error e =>
      cases hab : strIncludes e "AbortError" <;>
        simp [hex, hdirp, hlink, hns, hdl, hab, abortHandlerFS]
    | ok content =>
      cases hacc : checksumAccepts sc (env.sha512hex content)
      · simp [hex, hdirp, hlink, hns, hdl, hacc]
      · cases hmk : env.mkdirResult with
        | error e2 => simp [hex, hdirp, hlink, hns, hdl, hacc, hmk]
        | ok u =>
          cases huz : env.unzipResult with
          | error e3 =>
            cases hab : strIncludes e3 "AbortError" <;>
              simp [hex, hdirp, hlink, hns, hdl, hacc, hmk, huz, hab, abortHandlerFS]
          | ok u2 => simp [hex, hdirp, hlink, hns, hdl, hacc, hmk, huz]
  | true =>
    cases hdl : env.downloadResult with
    | error e =>
      cases hab : strIncludes e "AbortError" <;>
        simp [hex, hdirp, hlink, hdl, hab, abortHandlerFS]
    | ok content =>
      cases hacc : checksumAccepts sc (env.sha512hex content)
      · simp [hex, hdirp, hlink, hdl, hacc]
      · cases hfs : fs0.installSubDir with
        | none => simp [hex, hdirp, hlink, hdl, hacc, hfs] at hraw
        | some d =>
          by_cases hbk : fs0.backupDir.getD [] = []
          · cases huz : env.unzipResult with
            | error e3 =>
              cases hab : strIncludes e3 "AbortError" <;>
                simp [hex, hdirp, hlink, hdl, hacc, hfs, hbk, huz, hab, abortHandlerFS]
            | ok u2 => simp [hex, hdirp, hlink, hdl, hacc, hfs, hbk, huz]
          · simp [hex, hdirp, hlink, hdl, hacc, hfs, hbk] at hraw

/-- C8 witness: a concrete successful fresh run ends with the archive file
absent. -/
theorem c8_witness_archive_removed :
    (installVersion env0 vi0 "p" false fsEmpty).fs.tarFile = none :=
  c8_archive_absent_on_defined_outcomes env0 vi0 "p" false fsEmpty
    (some "sha512-bytes trailing")
    (by decide) (by decide) (by decide) (by decide) (by decide) (by decide)

/-- C9: if one repository's fetch fails during a catalog query, the failure is
logged (its message appears in the log list) and that repository contributes
nothing, while the query still resolves with exactly the releases of the
successfully fetched repositories, in repository order. -/
theorem c9_partial_fetch_failure_excluded_and_logged
    (f : Repositorys → Nat → Except String (List VersionInfo))
    (l : List Repositorys) (c : Nat) (r : Repositorys) (e : String)
    (hr : r ∈ l) (hf : f r c = .error e) :
    (getAvailableVersions f l c).1 = successfulReleases f l c ∧
    e ∈ (getAvailableVersions f l c).2 := by
  refine ⟨getAvailableVersions_fst f l c, ?_⟩
  induction l with
  | nil => cases hr
  | cons a rest ih =>
    unfold getAvailableVersions
    cases hr with
    | head => simp [hf]
    | tail _ hr2 =>
      cases hfa : f a c <;> simp [hfa, ih hr2]

/-- C9 witness: with the Proton-GE fetch rejecting, the query still resolves
with the Wine-GE releases and logs the failure. -/
theorem c9_witness_partial_failure :
    (getAvailableVersions fetchFix [.WINEGE, .PROTONGE] 100).1 =
      successfulReleases fetchFix [.WINEGE, .PROTONGE] 100 ∧
    "http 500" ∈ (getAvailableVersions fetchFix [.WINEGE, .PROTONGE] 100).2 :=
  c9_partial_fetch_failure_excluded_and_logged fetchFix [.WINEGE, .PROTONGE] 100
    .PROTONGE "http 500" (by decide) (by decide)

/-- C10: a run that fails with a checksum mismatch leaves the install
subdirectory and backup directory exactly as they were before the run (the
verification happens before the mkdir / backup-rename step, whose event never
occurs), and its only filesystem effect is that the archive path is empty
afterwards. -/
theorem c10_checksum_mismatch_touches_only_archive
    (env : Env) (vi : VersionInfo) (dir : String) (ow : Bool) (fs0 : FS)
    (t content : String)
    (hfetch : resolveChecksum env vi = .ok (some t))
    (ht : ¬t = "")
    (hex : env.installDirExists = true) (hdirp : env.installDirIsDir = true)
    (hlink : ¬vi.download = "")
    (hskip : (fs0.installSubDir.isSome && !ow) = false)
    (hdl : env.downloadResult = .ok content)
    (hmiss : strIncludes t (env.sha512hex content) = false) :
    (installVersion env vi dir ow fs0).outcome = .error .checksumMismatch ∧
    (installVersion env vi dir ow fs0).fs = { fs0 with tarFile := none } ∧
    Event.mkdirOrBackup ∉ (installVersion env vi dir ow fs0).trace := by
  unfold installVersion
  rw [hfetch]
  cases hurl : checksumUrlTruthy vi <;>
    simp [hex, hdirp, hlink, hskip, hdl, checksumAccepts, ht, hmiss, hurl]

/-- C10 witness: a concrete overwrite run with a mismatching manifest fails
with ChecksumMismatchError leaving the pre-existing install and creating no
backup. -/
theorem c10_witness_mismatch_preserves_install :
    (installVersion { env0 with manifestFetch := .ok "deadbeef cafe" }
        vi0 "p" true fsPre).outcome = .error .checksumMismatch ∧
    (installVersion { env0 with manifestFetch := .ok "deadbeef cafe" }
        vi0 "p" true fsPre).fs = { fsPre with tarFile := none } ∧
    Event.mkdirOrBackup ∉
      (installVersion { env0 with manifestFetch := .ok "deadbeef cafe" }
        vi0 "p" true fsPre).trace :=
  c10_checksum_mismatch_touches_only_archive
    { env0 with manifestFetch := .ok "deadbeef cafe" } vi0 "p" true fsPre
    "deadbeef cafe" "bytes"
    (by decide) (by decide) (by decide) (by decide) (by decide) (by decide)
    (by decide) (by decide)
